import Mathlib

/-!
Shallow embedding of `src/functions/api/upload.js`.

The handler `onRequestPost` performs a linear sequence of network calls
(repository check, repository create, file read, file upsert, webhook POST).
We model the outcome of each possible call site as a field of a `World`
record, and each embedded function returns both its value (or thrown error,
as `Except String`) and the list of outbound network calls it attempted.
JavaScript `null`/`undefined` string values are modelled as `Option String`,
with explicit truthiness (`jsTruthy`) and template-literal stringification
(`jsToString`, where `null` prints as `"null"`).
-/

namespace Upload

/-- JS `String.prototype.toLowerCase` (ASCII case mapping). -/
def jsToLowerCase (s : String) : String := String.mk (s.data.map Char.toLower)

/-- JS `String.prototype.toUpperCase` (ASCII case mapping). -/
def jsToUpperCase (s : String) : String := String.mk (s.data.map Char.toUpper)

/-- JS truthiness of a possibly-null string (`null` and `""` are falsy). -/
def jsTruthy : Option String → Bool
  | none => false
  | some s => s ≠ ""

/-- JS template-literal stringification of a possibly-null string
(`null` prints as `"null"`). -/
def jsToString : Option String → String
  | none => "null"
  | some s => s

/-- Value of a base64 alphabet character, `none` for a character outside the
alphabet. -/
def b64Val (c : Char) : Option Nat :=
  if 'A' ≤ c ∧ c ≤ 'Z' then some (c.toNat - 65)
  else if 'a' ≤ c ∧ c ≤ 'z' then some (c.toNat - 71)
  else if '0' ≤ c ∧ c ≤ '9' then some (c.toNat + 4)
  else if c = '+' then some 62
  else if c = '/' then some 63
  else none

/-- ASCII whitespace stripped by forgiving-base64 decoding. -/
def isB64Whitespace (c : Char) : Bool :=
  c == ' ' || c == '\t' || c == '\n' || c == '\r' || c == Char.ofNat 12

/-- Turn a list of 6-bit values into the decoded bytes (forgiving-base64:
a trailing group of 2 or 3 values contributes 1 or 2 bytes). -/
def decodeQuanta : List Nat → List Nat
  | [] => []
  | [_] => []
  | [a, b] => [a * 4 + b / 16]
  | [a, b, c] => [a * 4 + b / 16, (b % 16) * 16 + c / 4]
  | a :: b :: c :: d :: rest =>
      (a * 4 + b / 16) :: ((b % 16) * 16 + c / 4) :: ((c % 4) * 64 + d) ::
        decodeQuanta rest

/-- Remove the trailing `=` padding when the quantum is complete. -/
def stripPad (data : List Char) : List Char :=
  if data.length % 4 = 0 then
    match data.reverse with
    | '=' :: '=' :: rest => rest.reverse
    | '=' :: rest => rest.reverse
    | _ => data
  else data

/-- The `atob` builtin: forgiving-base64 decode to a latin-1 string,
`none` models the `InvalidCharacterError` it throws on malformed input. -/
def atob (input : String) : Option String :=
  let data := input.toList.filter (fun c => !isB64Whitespace c)
  let data := stripPad data
  if data.length % 4 = 1 then none
  else if data.any (fun c => (b64Val c).isNone) then none
  else some (String.mk ((decodeQuanta (data.filterMap b64Val)).map Char.ofNat))

/-- Outcome of the repository-existence GET inside `ensureRepo`. -/
inductive RepoCheckOutcome where
  | ok
  | notOk
  | transport (msg : String)
deriving DecidableEq

/-- Outcome of the repository-creation POST inside `ensureRepo`:
on a non-ok response the body is parsed and its `message` field read. -/
inductive RepoCreateOutcome where
  | ok
  | notOk (hostMsg : String)
  | transport (msg : String)
deriving DecidableEq

/-- Outcome of the file-contents GET inside `uploadFile`: an ok response
with a parsed `sha`, an ok response whose body fails to parse as JSON,
a 404, another non-success status, or a thrown transport error. -/
inductive FileCheckOutcome where
  | okWithSha (sha : String)
  | okBadJson
  | notFound
  | otherStatus (status : Nat)
  | transport (msg : String)
deriving DecidableEq

/-- Outcome of the file-upsert PUT inside `uploadFile`. -/
inductive FilePutOutcome where
  | ok (html_url sha : String)
  | httpError (status : Nat) (bodyText : String)
  | transport (msg : String)
deriving DecidableEq

/-- Outcome of the webhook POST: a response whose body parses to some JSON
(kept opaque as its text), a thrown fetch, or a body that fails to parse. -/
inductive WebhookOutcome where
  | ok (json : String)
  | fetchThrow (msg : String)
  | jsonThrow (msg : String)
deriving DecidableEq

/-- Outcomes of every call site the handler can reach, plus the current
UTC date used for the `date` default. Each call site executes at most once
per request, so one outcome per site suffices. -/
structure World where
  repoCheck : RepoCheckOutcome
  repoCreate : RepoCreateOutcome
  fileCheck : FileCheckOutcome
  filePut : FilePutOutcome
  webhook : WebhookOutcome
  today : String
deriving DecidableEq

/-- Payload of the webhook POST, as built at the call site. -/
structure WebhookPayload where
  classField : String
  date : String
  content : String
deriving DecidableEq

/-- Body of the file-upsert PUT (`uploadData` in the source). -/
structure UploadData where
  message : String
  content : Option String
  branch : String
  sha : Option String
deriving DecidableEq

/-- An attempted outbound network call. -/
inductive NetCall where
  | getRepo (url : String)
  | createRepo (name : String)
  | getFile (url : String)
  | putFile (url : String) (data : UploadData)
  | webhookPost (url : String) (payload : WebhookPayload)
deriving DecidableEq

/-- The value `uploadFile` returns on success. -/
structure GithubResult where
  url : String
  sha : String
  path : String
deriving DecidableEq

/-- JSON body of the handler response: the success envelope
`{success:true, message, github, drive}` or the failure envelope
`{success:false, message}`. -/
inductive RespBody where
  | success (message : String) (github : GithubResult) (drive : Option String)
  | failure (message : String)
deriving DecidableEq

/-- An HTTP response as the handler builds it. -/
structure Response where
  body : RespBody
  status : Nat
  headers : List (String × String)
deriving DecidableEq

/-- Headers set by both response shapers. -/
def responseHeaders : List (String × String) :=
  [("Content-Type", "application/json"), ("Access-Control-Allow-Origin", "*")]

/-- Headers sent on GitHub API calls (`githubHeaders` in the source). -/
def githubHeaders (token : String) (includeContentType : Bool) :
    List (String × String) :=
  let headers := [("Authorization", "token " ++ token),
                  ("User-Agent", "LFJC-Portal"),
                  ("Accept", "application/vnd.github.v3+json")]
  if includeContentType then headers ++ [("Content-Type", "application/json")]
  else headers

/-- The success shaper: a JSON body spreading the data into
success-true envelope, with the default status 200. The only call site
passes message, github and drive, so the spread is embedded with those
three fields. -/
def successResponse (message : String) (github : GithubResult)
    (drive : Option String) : Response :=
  { body := .success message github drive, status := 200,
    headers := responseHeaders }

/-- The failure shaper: a success-false JSON body whose message falls back
to the literal `Upload failed` when the given message is falsy, with
status 500. -/
def errorResponse (message : Option String) : Response :=
  { body := .failure (if jsTruthy message then jsToString message
                      else "Upload failed"),
    status := 500, headers := responseHeaders }

/-- The `ensureRepo` helper: GET the repository; on an ok response return immediately.
On a non-ok response, or when the GET throws (caught and swallowed), POST a
repository creation; a non-ok creation response throws an error embedding
the message parsed from the host body. -/
def ensureRepo (username repoName token : String) (w : World) :
    Except String Bool × List NetCall :=
  let repoUrl := "https://api.github.com/repos/" ++ username ++ "/" ++ repoName
  match w.repoCheck with
  | .ok => (.ok true, [.getRepo repoUrl])
  | _ =>
    match w.repoCreate with
    | .ok => (.ok true, [.getRepo repoUrl, .createRepo repoName])
    | .notOk hostMsg =>
        (.error ("Failed to create repo " ++ repoName ++ ": " ++ hostMsg),
         [.getRepo repoUrl, .createRepo repoName])
    | .transport msg =>
        (.error msg, [.getRepo repoUrl, .createRepo repoName])

/-- URL of the file resource built by `uploadFile`. -/
def fileUrlOf (username repoName filePath : String) : String :=
  "https://api.github.com/repos/" ++ username ++ "/" ++ repoName ++
    "/contents/" ++ filePath

/-- The `sha` variable after the file-existence check: set only when the GET
responded ok and its body parsed with a `sha` field; a 404, another status,
a bad body or a thrown fetch all leave it `null`. -/
def shaFromCheck : FileCheckOutcome → Option String
  | .okWithSha s => some s
  | _ => none

/-- The PUT body: `{message, content, branch:"main"}` plus `sha` exactly when
the `sha` variable is truthy. -/
def mkUploadData (message : String) (content : Option String)
    (sha : Option String) : UploadData :=
  { message := message, content := content, branch := "main",
    sha := if jsTruthy sha then sha else none }

/-- The `uploadFile` helper: read the file resource to obtain a revision id, then PUT
the upsert. A non-ok PUT response throws `GitHub API error: {status}` (the
body text is read but unused); a successful PUT returns
`{url, sha, path}` from the response body's `content` object. -/
def uploadFile (username repoName filePath : String) (content : Option String)
    (token message : String) (w : World) :
    Except String GithubResult × List NetCall :=
  let fileUrl := fileUrlOf username repoName filePath
  let sha := shaFromCheck w.fileCheck
  let uploadData := mkUploadData message content sha
  let calls := [NetCall.getFile fileUrl, NetCall.putFile fileUrl uploadData]
  match w.filePut with
  | .ok html_url rsha =>
      (.ok { url := html_url, sha := rsha, path := filePath }, calls)
  | .httpError status _bodyText =>
      (.error ("GitHub API error: " ++ toString status), calls)
  | .transport msg => (.error msg, calls)

/-- The webhook block of the answer branch: runs only when the script URL is
truthy; decodes the base64 content (an `atob` throw is caught by the inner
handler before any fetch is attempted); POSTs
`{class: CLASS, date, content: decoded}`; any fetch or JSON-parse failure is
caught and leaves `driveResult` null. -/
def webhookStep (googleScriptUrl : Option String) (className date : String)
    (content : Option String) (w : World) : Option String × List NetCall :=
  if jsTruthy googleScriptUrl then
    match atob (jsToString content) with
    | none => (none, [])
    | some decoded =>
      let payload : WebhookPayload :=
        { classField := jsToUpperCase className, date := date, content := decoded }
      match w.webhook with
      | .ok json => (some json, [.webhookPost (jsToString googleScriptUrl) payload])
      | .fetchThrow _ => (none, [.webhookPost (jsToString googleScriptUrl) payload])
      | .jsonThrow _ => (none, [.webhookPost (jsToString googleScriptUrl) payload])
  else (none, [])

/-- Environment bindings read by the handler. -/
structure Env where
  GITHUB_TOKEN : Option String
  GITHUB_USER : Option String
  GOOGLE_SCRIPT_URL : Option String
deriving DecidableEq

/-- Form fields read by the handler (an absent field reads as `null`).
The `class` field is named `classField` because `class` is reserved. -/
structure FormData where
  classField : Option String
  filename : Option String
  content : Option String
  typeField : Option String
  date : Option String
deriving DecidableEq

/-- Message of the TypeError thrown by calling `toLowerCase` on `null`. -/
def nullToLowerCaseMsg : String :=
  "Cannot read properties of null (reading toLowerCase)"

/-- The `type` form field, defaulting to `question` when absent or empty. -/
def resolvedType (form : FormData) : String :=
  if jsTruthy form.typeField then jsToString form.typeField else "question"

/-- The `date` form field, defaulting to the current UTC date when absent
or empty. -/
def resolvedDate (form : FormData) (today : String) : String :=
  if jsTruthy form.date then jsToString form.date else today

/-- The handler `onRequestPost`: the whole body, inside its single try/catch.
Returns the response together with every outbound call attempted. -/
def onRequestPost (env : Env) (form : FormData) (w : World) :
    Response × List NetCall :=
  if !jsTruthy env.GITHUB_TOKEN then (errorResponse (some "No GitHub token"), [])
  else
    match form.classField with
    | none => (errorResponse (some nullToLowerCaseMsg), [])
    | some cls =>
      let GITHUB_TOKEN := jsToString env.GITHUB_TOKEN
      let GITHUB_USER :=
        if jsTruthy env.GITHUB_USER then jsToString env.GITHUB_USER
        else "iitjeelf"
      let className := jsToLowerCase cls
      let typeVal := resolvedType form
      let date := resolvedDate form w.today
      match ensureRepo GITHUB_USER className GITHUB_TOKEN w with
      | (.error e, calls) => (errorResponse (some e), calls)
      | (.ok _, calls₁) =>
        if typeVal = "answer" then
          let filePath := "answers/answer-key-" ++ date ++ ".txt"
          let message := "Add answer key for " ++ jsToUpperCase className ++ " - " ++ date
          match uploadFile GITHUB_USER className filePath form.content
              GITHUB_TOKEN message w with
          | (.error e, calls₂) => (errorResponse (some e), calls₁ ++ calls₂)
          | (.ok githubResult, calls₂) =>
            let step := webhookStep env.GOOGLE_SCRIPT_URL className date
              form.content w
            (successResponse ("Uploaded to " ++ jsToUpperCase className) githubResult
               step.1,
             calls₁ ++ calls₂ ++ step.2)
        else
          let filePath := "questions/" ++ jsToString form.filename
          let message := "Add question: " ++ jsToString form.filename ++ " to " ++
            jsToUpperCase className
          match uploadFile GITHUB_USER className filePath form.content
              GITHUB_TOKEN message w with
          | (.error e, calls₂) => (errorResponse (some e), calls₁ ++ calls₂)
          | (.ok githubResult, calls₂) =>
            (successResponse ("Uploaded to " ++ jsToUpperCase className) githubResult
               none,
             calls₁ ++ calls₂)


/-! ## Theorems -/

/-- C1: in `uploadFile` the PUT body carries a `sha` field exactly when the
preceding GET of the file resource succeeded and yielded a (truthy) sha: on
success the sha obtained from the read is included; on a 404 or a thrown
transport error no sha is sent; and in every case the PUT is still attempted
(the failed check is not a hard failure). -/
theorem uploadFile_sha_iff_check_succeeded
    (username repoName filePath : String) (content : Option String)
    (token message : String) (w : World) :
    (∀ s, w.fileCheck = .okWithSha s → s ≠ "" →
      (mkUploadData message content (shaFromCheck w.fileCheck)).sha = some s) ∧
    ((w.fileCheck = .notFound ∨ (∃ m, w.fileCheck = .transport m)) →
      (mkUploadData message content (shaFromCheck w.fileCheck)).sha = none) ∧
    (∀ s, (mkUploadData message content (shaFromCheck w.fileCheck)).sha = some s →
      w.fileCheck = .okWithSha s ∧ s ≠ "") ∧
    NetCall.putFile (fileUrlOf username repoName filePath)
        (mkUploadData message content (shaFromCheck w.fileCheck)) ∈
      (uploadFile username repoName filePath content token message w).2 := by
  refine ⟨?_, ?_, ?_, ?_⟩
  · intro s hs hne
    simp [mkUploadData, shaFromCheck, hs, jsTruthy, hne]
  · rintro (h | ⟨m, h⟩) <;> simp [mkUploadData, shaFromCheck, h, jsTruthy]
  · intro s hsome
    cases hfc : w.fileCheck <;>
      simp [mkUploadData, shaFromCheck, hfc, jsTruthy] at hsome
    case okWithSha s' =>
      rcases hsome with ⟨hne, hss⟩
      exact ⟨by rw [hss], by rw [← hss]; exact hne⟩
  · cases hput : w.filePut <;> simp [uploadFile, hput]

/-- Witness for C1 at concrete inputs: an existing file with sha `abc`
yields a PUT body with `sha = some "abc"`, and a not-found check yields
none while the PUT is still attempted. -/
theorem uploadFile_sha_iff_check_succeeded_witness :
    (mkUploadData "m" (some "c")
        (shaFromCheck (World.fileCheck ⟨.ok, .ok, .okWithSha "abc", .ok "x" "y",
          .ok "j", "d"⟩))).sha = some "abc" ∧
    (mkUploadData "m" (some "c")
        (shaFromCheck (World.fileCheck ⟨.ok, .ok, .notFound, .ok "x" "y",
          .ok "j", "d"⟩))).sha = none :=
  ⟨(uploadFile_sha_iff_check_succeeded "u" "r" "p" (some "c") "t" "m"
      ⟨.ok, .ok, .okWithSha "abc", .ok "x" "y", .ok "j", "d"⟩).1 "abc" rfl
      (by decide),
   (uploadFile_sha_iff_check_succeeded "u" "r" "p" (some "c") "t" "m"
      ⟨.ok, .ok, .notFound, .ok "x" "y", .ok "j", "d"⟩).2.1 (Or.inl rfl)⟩

/-- C3: a non-success PUT response makes `uploadFile` fail with an error
naming only the HTTP status (the body text read from the response does not
appear in the message), and a successful PUT returns exactly the url and
revision id from the response body's `content` object together with the
path. -/
theorem uploadFile_put_response_handling
    (username repoName filePath : String) (content : Option String)
    (token message : String) (w : World) :
    (∀ status bodyText, w.filePut = .httpError status bodyText →
      (uploadFile username repoName filePath content token message w).1 =
        .error ("GitHub API error: " ++ toString status)) ∧
    (∀ u s, w.filePut = .ok u s →
      (uploadFile username repoName filePath content token message w).1 =
        .ok { url := u, sha := s, path := filePath }) := by
  constructor
  · intro status bodyText h
    simp [uploadFile, h]
  · intro u s h
    simp [uploadFile, h]

/-- Witness for C3: a 422 PUT response yields the status-only error message
(for any body text), and an ok PUT yields `{url, sha, path}`. -/
theorem uploadFile_put_response_handling_witness :
    (uploadFile "u" "r" "p" (some "c") "t" "m"
        ⟨.ok, .ok, .notFound, .httpError 422 "secret body", .ok "j", "d"⟩).1 =
      .error "GitHub API error: 422" ∧
    (uploadFile "u" "r" "p" (some "c") "t" "m"
        ⟨.ok, .ok, .notFound, .ok "theUrl" "theSha", .ok "j", "d"⟩).1 =
      .ok { url := "theUrl", sha := "theSha", path := "p" } :=
  ⟨(uploadFile_put_response_handling "u" "r" "p" (some "c") "t" "m"
      ⟨.ok, .ok, .notFound, .httpError 422 "secret body", .ok "j", "d"⟩).1
      422 "secret body" rfl,
   (uploadFile_put_response_handling "u" "r" "p" (some "c") "t" "m"
      ⟨.ok, .ok, .notFound, .ok "theUrl" "theSha", .ok "j", "d"⟩).2
      "theUrl" "theSha" rfl⟩

/-- C5: when the access token is not configured (falsy), the handler
returns the failure envelope for "No GitHub token" immediately and the list
of attempted outbound network calls is empty. -/
theorem missing_token_no_network (env : Env) (form : FormData) (w : World)
    (h : jsTruthy env.GITHUB_TOKEN = false) :
    onRequestPost env form w = (errorResponse (some "No GitHub token"), []) ∧
    (errorResponse (some "No GitHub token")).body =
      .failure "No GitHub token" ∧
    (errorResponse (some "No GitHub token")).status = 500 := by
  refine ⟨?_, by decide, rfl⟩
  simp [onRequestPost, h]

/-- Witness for C5: a request with no token field set. -/
theorem missing_token_no_network_witness :
    onRequestPost ⟨none, none, none⟩
        ⟨some "JEE", some "q.txt", some "Zm9v", none, none⟩
        ⟨.ok, .ok, .notFound, .ok "u" "s", .ok "j", "d"⟩ =
      (errorResponse (some "No GitHub token"), []) :=
  (missing_token_no_network ⟨none, none, none⟩
    ⟨some "JEE", some "q.txt", some "Zm9v", none, none⟩
    ⟨.ok, .ok, .notFound, .ok "u" "s", .ok "j", "d"⟩ rfl).1

/-- C10: when the `class` form field is absent, lower-casing `null` throws,
the top-level handler catches it and returns the 500 failure envelope, and
no network call is attempted. -/
theorem null_class_throws (env : Env) (form : FormData) (w : World)
    (htok : jsTruthy env.GITHUB_TOKEN = true) (hcls : form.classField = none) :
    onRequestPost env form w = (errorResponse (some nullToLowerCaseMsg), []) ∧
    (onRequestPost env form w).1.status = 500 ∧
    (onRequestPost env form w).1.body = .failure nullToLowerCaseMsg := by
  have hmain : onRequestPost env form w =
      (errorResponse (some nullToLowerCaseMsg), []) := by
    simp [onRequestPost, htok, hcls]
  refine ⟨hmain, ?_, ?_⟩ <;> rw [hmain] <;> decide

/-- Witness for C10: token configured, `class` field absent. -/
theorem null_class_throws_witness :
    onRequestPost ⟨some "tok", none, none⟩
        ⟨none, some "q.txt", some "Zm9v", none, none⟩
        ⟨.ok, .ok, .notFound, .ok "u" "s", .ok "j", "d"⟩ =
      (errorResponse (some nullToLowerCaseMsg), []) :=
  (null_class_throws ⟨some "tok", none, none⟩
    ⟨none, some "q.txt", some "Zm9v", none, none⟩
    ⟨.ok, .ok, .notFound, .ok "u" "s", .ok "j", "d"⟩ (by decide) rfl).1


/-- When the webhook outcome is a thrown fetch or an unparseable body, the
`driveResult` of the webhook block stays null. -/
theorem webhookStep_drive_none_of_throw (gsu : Option String)
    (className date : String) (content : Option String) (w : World)
    (hwh : (∃ m, w.webhook = .fetchThrow m) ∨ (∃ m, w.webhook = .jsonThrow m)) :
    (webhookStep gsu className date content w).1 = none := by
  rcases hwh with ⟨m, hm⟩ | ⟨m, hm⟩ <;>
    · simp only [webhookStep, hm]
      split
      · split <;> rfl
      · rfl

/-- C6: `ensureRepo` returns immediately after an ok existence check (its
only call is the GET, no creation is attempted); on any other check outcome
it POSTs a creation request; a failed creation throws an error embedding the
host's message, and the caller surfaces that message in its failure
response. -/
theorem ensureRepo_check_create_behavior
    (username repoName token : String) (w : World) :
    (w.repoCheck = .ok →
      ensureRepo username repoName token w =
        (.ok true,
         [.getRepo ("https://api.github.com/repos/" ++ username ++ "/" ++
           repoName)])) ∧
    (w.repoCheck ≠ .ok →
      NetCall.createRepo repoName ∈ (ensureRepo username repoName token w).2) ∧
    (∀ hostMsg, w.repoCheck ≠ .ok → w.repoCreate = .notOk hostMsg →
      (ensureRepo username repoName token w).1 =
        .error ("Failed to create repo " ++ repoName ++ ": " ++ hostMsg)) ∧
    (∀ env form cls hostMsg, jsTruthy env.GITHUB_TOKEN = true →
      form.classField = some cls → w.repoCheck ≠ .ok →
      w.repoCreate = .notOk hostMsg →
      (onRequestPost env form w).1 =
        errorResponse (some ("Failed to create repo " ++ jsToLowerCase cls ++
          ": " ++ hostMsg))) := by
  refine ⟨?_, ?_, ?_, ?_⟩
  · intro h
    simp [ensureRepo, h]
  · intro h
    cases hrc : w.repoCheck <;> try exact absurd hrc h
    all_goals cases hcr : w.repoCreate <;> simp [ensureRepo, hrc, hcr]
  · intro hostMsg h hcr
    cases hrc : w.repoCheck <;> try exact absurd hrc h
    all_goals simp [ensureRepo, hrc, hcr]
  · intro env form cls hostMsg htok hcls h hcr
    cases hrc : w.repoCheck <;> try exact absurd hrc h
    all_goals simp [onRequestPost, htok, hcls, ensureRepo, hrc, hcr]

/-- Witness for C6: an ok check makes no creation call; a check failure
followed by a creation failure with host message `name already exists`
surfaces that message in the caller's 500 response. -/
theorem ensureRepo_check_create_behavior_witness :
    ensureRepo "iitjeelf" "jee" "tok"
        ⟨.ok, .ok, .notFound, .ok "u" "s", .ok "j", "d"⟩ =
      (.ok true, [.getRepo "https://api.github.com/repos/iitjeelf/jee"]) ∧
    (onRequestPost ⟨some "tok", none, none⟩
        ⟨some "JEE", some "q.txt", some "Zm9v", none, none⟩
        ⟨.notOk, .notOk "name already exists", .notFound, .ok "u" "s",
         .ok "j", "d"⟩).1 =
      errorResponse (some "Failed to create repo jee: name already exists") :=
  ⟨(ensureRepo_check_create_behavior "iitjeelf" "jee" "tok"
      ⟨.ok, .ok, .notFound, .ok "u" "s", .ok "j", "d"⟩).1 rfl,
   (ensureRepo_check_create_behavior "x" "y" "z"
      ⟨.notOk, .notOk "name already exists", .notFound, .ok "u" "s",
       .ok "j", "d"⟩).2.2.2
      ⟨some "tok", none, none⟩ ⟨some "JEE", some "q.txt", some "Zm9v", none, none⟩
      "JEE" "name already exists" (by decide) rfl (by decide) rfl⟩

/-- C2: the repository name is the lower-cased `class` field (witnessed by
the repository GET), and on a successful upload the stored path is
`answers/answer-key-{date}.txt` when the type is `answer` and
`questions/{filename}` for any other type value (including the default
`question` when the field is absent). -/
theorem onRequestPost_repo_and_path (env : Env) (form : FormData) (w : World)
    (cls u s : String)
    (htok : jsTruthy env.GITHUB_TOKEN = true) (hcls : form.classField = some cls)
    (hrepo : w.repoCheck = .ok) (hput : w.filePut = .ok u s) :
    (∃ msg drive, (onRequestPost env form w).1 =
      successResponse msg
        ⟨u, s,
         if resolvedType form = "answer"
         then "answers/answer-key-" ++ resolvedDate form w.today ++ ".txt"
         else "questions/" ++ jsToString form.filename⟩ drive) ∧
    NetCall.getRepo ("https://api.github.com/repos/" ++
        (if jsTruthy env.GITHUB_USER then jsToString env.GITHUB_USER
         else "iitjeelf") ++ "/" ++ jsToLowerCase cls) ∈
      (onRequestPost env form w).2 := by
  constructor
  · by_cases hty : resolvedType form = "answer"
    · exact ⟨"Uploaded to " ++ jsToUpperCase (jsToLowerCase cls),
        (webhookStep env.GOOGLE_SCRIPT_URL (jsToLowerCase cls)
          (resolvedDate form w.today) form.content w).1,
        by simp [onRequestPost, htok, hcls, ensureRepo, hrepo, uploadFile,
             hput, hty]⟩
    · exact ⟨"Uploaded to " ++ jsToUpperCase (jsToLowerCase cls), none,
        by simp [onRequestPost, htok, hcls, ensureRepo, hrepo, uploadFile,
             hput, hty]⟩
  · by_cases hty : resolvedType form = "answer" <;>
      simp [onRequestPost, htok, hcls, ensureRepo, hrepo, uploadFile,
        hput, hty]

/-- Witness for C2: a question upload (type absent) stores at
`questions/q.txt` in repository `jee`, and an answer upload with date
`2024-05-01` stores at `answers/answer-key-2024-05-01.txt`. -/
theorem onRequestPost_repo_and_path_witness :
    (∃ msg drive,
      (onRequestPost ⟨some "tok", none, none⟩
          ⟨some "JEE", some "q.txt", some "Zm9v", none, none⟩
          ⟨.ok, .ok, .notFound, .ok "u" "s", .ok "j", "d"⟩).1 =
        successResponse msg ⟨"u", "s", "questions/q.txt"⟩ drive) ∧
    (∃ msg drive,
      (onRequestPost ⟨some "tok", none, none⟩
          ⟨some "JEE", none, some "Zm9v", some "answer", some "2024-05-01"⟩
          ⟨.ok, .ok, .notFound, .ok "u" "s", .ok "j", "d"⟩).1 =
        successResponse msg ⟨"u", "s", "answers/answer-key-2024-05-01.txt"⟩
          drive) := by
  constructor
  · rcases (onRequestPost_repo_and_path ⟨some "tok", none, none⟩
        ⟨some "JEE", some "q.txt", some "Zm9v", none, none⟩
        ⟨.ok, .ok, .notFound, .ok "u" "s", .ok "j", "d"⟩
        "JEE" "u" "s" (by decide) rfl rfl rfl).1 with ⟨msg, drive, hp⟩
    exact ⟨msg, drive, by simpa using hp⟩
  · rcases (onRequestPost_repo_and_path ⟨some "tok", none, none⟩
        ⟨some "JEE", none, some "Zm9v", some "answer", some "2024-05-01"⟩
        ⟨.ok, .ok, .notFound, .ok "u" "s", .ok "j", "d"⟩
        "JEE" "u" "s" (by decide) rfl rfl rfl).1 with ⟨msg, drive, hp⟩
    exact ⟨msg, drive, by simpa using hp⟩

/-- C4: for an answer upload whose hosting upload succeeded, a webhook fetch
that throws or a webhook body that fails to parse leaves the overall
response the success envelope with a null drive field: the webhook cannot
change the request outcome. -/
theorem webhook_failure_isolated (env : Env) (form : FormData) (w : World)
    (cls u s : String)
    (htok : jsTruthy env.GITHUB_TOKEN = true) (hcls : form.classField = some cls)
    (hty : resolvedType form = "answer")
    (hrepo : w.repoCheck = .ok) (hput : w.filePut = .ok u s)
    (hwh : (∃ m, w.webhook = .fetchThrow m) ∨ (∃ m, w.webhook = .jsonThrow m)) :
    (onRequestPost env form w).1 =
      successResponse ("Uploaded to " ++ jsToUpperCase (jsToLowerCase cls))
        ⟨u, s, "answers/answer-key-" ++ resolvedDate form w.today ++ ".txt"⟩
        none ∧
    (onRequestPost env form w).1.status = 200 := by
  have hdrive := webhookStep_drive_none_of_throw env.GOOGLE_SCRIPT_URL
    (jsToLowerCase cls) (resolvedDate form w.today) form.content w hwh
  have hmain : (onRequestPost env form w).1 =
      successResponse ("Uploaded to " ++ jsToUpperCase (jsToLowerCase cls))
        ⟨u, s, "answers/answer-key-" ++ resolvedDate form w.today ++ ".txt"⟩
        none := by
    simp [onRequestPost, htok, hcls, ensureRepo, hrepo, uploadFile, hput,
      hty, hdrive]
  exact ⟨hmain, by rw [hmain]; rfl⟩

/-- Witness for C4: webhook configured, fetch throws; the answer upload
still succeeds with a null drive field. -/
theorem webhook_failure_isolated_witness :
    (onRequestPost ⟨some "tok", none, some "https://wh"⟩
        ⟨some "JEE", none, some "Zm9v", some "answer", some "2024-05-01"⟩
        ⟨.ok, .ok, .notFound, .ok "u" "s", .fetchThrow "network down",
         "d"⟩).1 =
      successResponse "Uploaded to JEE"
        ⟨"u", "s", "answers/answer-key-2024-05-01.txt"⟩ none := by
  have h := (webhook_failure_isolated ⟨some "tok", none, some "https://wh"⟩
    ⟨some "JEE", none, some "Zm9v", some "answer", some "2024-05-01"⟩
    ⟨.ok, .ok, .notFound, .ok "u" "s", .fetchThrow "network down", "d"⟩
    "JEE" "u" "s" (by decide) rfl (by decide) rfl rfl
    (Or.inl ⟨"network down", rfl⟩)).1
  simpa using h

/-- C9: a question upload with an absent `filename` field is not rejected:
the handler proceeds and the PUT targets the literal path `questions/null`
with commit message `Add question: null to {CLASS}`. -/
theorem null_filename_proceeds (env : Env) (form : FormData) (w : World)
    (cls : String)
    (htok : jsTruthy env.GITHUB_TOKEN = true) (hcls : form.classField = some cls)
    (hty : resolvedType form ≠ "answer") (hfn : form.filename = none)
    (hrepo : w.repoCheck = .ok) :
    NetCall.putFile
        (fileUrlOf
          (if jsTruthy env.GITHUB_USER then jsToString env.GITHUB_USER
           else "iitjeelf")
          (jsToLowerCase cls) "questions/null")
        (mkUploadData
          ("Add question: null to " ++ jsToUpperCase (jsToLowerCase cls))
          form.content (shaFromCheck w.fileCheck)) ∈
      (onRequestPost env form w).2 := by
  cases hput : w.filePut <;>
    simp [onRequestPost, htok, hcls, ensureRepo, hrepo, uploadFile, hput,
      hty, hfn, jsToString]

/-- Witness for C9: type and filename both absent; the PUT call targets
`questions/null`. -/
theorem null_filename_proceeds_witness :
    NetCall.putFile
        (fileUrlOf "iitjeelf" "jee" "questions/null")
        (mkUploadData "Add question: null to JEE" (some "Zm9v")
          (shaFromCheck FileCheckOutcome.notFound)) ∈
      (onRequestPost ⟨some "tok", none, none⟩
        ⟨some "JEE", none, some "Zm9v", none, none⟩
        ⟨.ok, .ok, .notFound, .ok "u" "s", .ok "j", "d"⟩).2 := by
  have h := null_filename_proceeds ⟨some "tok", none, none⟩
    ⟨some "JEE", none, some "Zm9v", none, none⟩
    ⟨.ok, .ok, .notFound, .ok "u" "s", .ok "j", "d"⟩
    "JEE" (by decide) rfl (by decide) rfl rfl
  simpa using h


/-- Repository ensuring never attempts a webhook POST. -/
theorem ensureRepo_calls_no_webhook (username repoName token : String)
    (w : World) (url : String) (p : WebhookPayload) :
    NetCall.webhookPost url p ∉ (ensureRepo username repoName token w).2 := by
  cases hrc : w.repoCheck <;> cases hcr : w.repoCreate <;>
    simp [ensureRepo, hrc, hcr]

/-- File uploading never attempts a webhook POST. -/
theorem uploadFile_calls_no_webhook (username repoName filePath : String)
    (content : Option String) (token message : String) (w : World)
    (url : String) (p : WebhookPayload) :
    NetCall.webhookPost url p ∉
      (uploadFile username repoName filePath content token message w).2 := by
  cases hput : w.filePut <;> simp [uploadFile, hput]

/-- Any webhook POST emitted by the webhook block requires a configured
(truthy) script URL and carries the payload built from the upper-cased class
name, the resolved date and the base64-decoded content. -/
theorem webhookStep_webhook_call (gsu : Option String)
    (className date : String) (content : Option String) (w : World)
    (url : String) (p : WebhookPayload)
    (h : NetCall.webhookPost url p ∈ (webhookStep gsu className date content w).2) :
    jsTruthy gsu = true ∧ p.classField = jsToUpperCase className ∧
    p.date = date ∧ atob (jsToString content) = some p.content := by
  cases hg : jsTruthy gsu
  · simp [webhookStep, hg] at h
  · cases hat : atob (jsToString content)
    · simp [webhookStep, hg, hat] at h
    · cases hwh : w.webhook <;> simp [webhookStep, hg, hat, hwh] at h <;>
        · rcases h with ⟨-, hp⟩
          subst hp
          exact ⟨rfl, rfl, rfl, rfl⟩

/-- When the webhook URL is unconfigured (falsy), the webhook block does
nothing: no call, null drive result. -/
theorem webhookStep_none_of_unconfigured (gsu : Option String)
    (className date : String) (content : Option String) (w : World)
    (h : jsTruthy gsu = false) :
    webhookStep gsu className date content w = (none, []) := by
  simp [webhookStep, h]

/-- C7: a webhook POST happens only when the resolved type is `answer` and
the webhook URL is configured, and then its payload is the upper-cased
class, the resolved date and the base64-decoded content; whenever the URL
is unconfigured or the type is not `answer`, the drive field of a success
response is null. -/
theorem webhook_scope_and_payload (env : Env) (form : FormData) (w : World) :
    (∀ url p, NetCall.webhookPost url p ∈ (onRequestPost env form w).2 →
      resolvedType form = "answer" ∧ jsTruthy env.GOOGLE_SCRIPT_URL = true ∧
      (∃ cls, form.classField = some cls ∧
        p.classField = jsToUpperCase (jsToLowerCase cls)) ∧
      p.date = resolvedDate form w.today ∧
      atob (jsToString form.content) = some p.content) ∧
    (∀ m gh d,
      (jsTruthy env.GOOGLE_SCRIPT_URL = false ∨ resolvedType form ≠ "answer") →
      (onRequestPost env form w).1.body = .success m gh d → d = none) := by
  constructor
  · intro url p hmem
    cases htok : jsTruthy env.GITHUB_TOKEN
    · simp [onRequestPost, htok] at hmem
    · cases hcls : form.classField
      · simp [onRequestPost, htok, hcls] at hmem
      case some cls =>
        by_cases hty : resolvedType form = "answer"
        · cases hrc : w.repoCheck <;> cases hcr : w.repoCreate <;>
            cases hput : w.filePut <;>
            simp [onRequestPost, htok, hcls, hty, ensureRepo, uploadFile,
              hrc, hcr, hput] at hmem <;>
            · have hp := webhookStep_webhook_call env.GOOGLE_SCRIPT_URL
                (jsToLowerCase cls) (resolvedDate form w.today) form.content
                w url p hmem
              exact ⟨hty, hp.1, ⟨cls, rfl, hp.2.1⟩, hp.2.2.1, hp.2.2.2⟩
        · cases hrc : w.repoCheck <;> cases hcr : w.repoCreate <;>
            cases hput : w.filePut <;>
            simp [onRequestPost, htok, hcls, hty, ensureRepo, uploadFile,
              hrc, hcr, hput] at hmem
  · intro m gh d hcond hbody
    cases htok : jsTruthy env.GITHUB_TOKEN
    · simp [onRequestPost, htok, errorResponse] at hbody
    · cases hcls : form.classField
      · simp [onRequestPost, htok, hcls, errorResponse] at hbody
      case some cls =>
        by_cases hty : resolvedType form = "answer"
        · rcases hcond with hg | hg
          · cases hrc : w.repoCheck <;> cases hcr : w.repoCreate <;>
              cases hput : w.filePut <;>
              simp [onRequestPost, htok, hcls, hty, ensureRepo, uploadFile,
                hrc, hcr, hput, errorResponse, successResponse,
                webhookStep_none_of_unconfigured env.GOOGLE_SCRIPT_URL
                  (jsToLowerCase cls) (resolvedDate form w.today)
                  form.content w hg] at hbody <;>
              exact hbody.2.2.symm
          · exact absurd hty hg
        · cases hrc : w.repoCheck <;> cases hcr : w.repoCreate <;>
            cases hput : w.filePut <;>
            simp [onRequestPost, htok, hcls, hty, ensureRepo, uploadFile,
              hrc, hcr, hput, errorResponse, successResponse] at hbody <;>
            exact hbody.2.2.symm

/-- Witness for C7: a configured answer upload emits exactly one webhook
POST with the upper-cased class, the given date and the decoded content. -/
theorem webhook_scope_and_payload_witness :
    resolvedType (FormData.mk (some "JEE") none (some "aGVsbG8=")
        (some "answer") (some "2024-05-01")) = "answer" ∧
    atob (jsToString (some "aGVsbG8=")) = some "hello" := by
  have h := (webhook_scope_and_payload ⟨some "tok", none, some "https://wh"⟩
    ⟨some "JEE", none, some "aGVsbG8=", some "answer", some "2024-05-01"⟩
    ⟨.ok, .ok, .notFound, .ok "u" "s", .ok "j", "d"⟩).1
    "https://wh" ⟨"JEE", "2024-05-01", "hello"⟩ (by decide)
  exact ⟨h.1, h.2.2.2.2⟩

/-- Every handler response is either the success shaper or the error shaper
applied to some arguments. -/
theorem onRequestPost_shape (env : Env) (form : FormData) (w : World) :
    (∃ m gh d, (onRequestPost env form w).1 = successResponse m gh d) ∨
    (∃ m, (onRequestPost env form w).1 = errorResponse (some m)) := by
  cases htok : jsTruthy env.GITHUB_TOKEN
  · exact Or.inr ⟨"No GitHub token", by simp [onRequestPost, htok]⟩
  · cases hcls : form.classField
    · exact Or.inr ⟨nullToLowerCaseMsg, by simp [onRequestPost, htok, hcls]⟩
    case some cls =>
      by_cases hty : resolvedType form = "answer" <;>
        cases hrc : w.repoCheck <;> cases hcr : w.repoCreate <;>
        cases hput : w.filePut <;>
        simp [onRequestPost, htok, hcls, hty, ensureRepo, uploadFile,
          hrc, hcr, hput] <;>
        first
        | exact Or.inl ⟨_, _, _, rfl⟩
        | exact Or.inr ⟨_, rfl⟩

/-- C8: every response the handler produces is a success envelope
(status 200, `{success:true, message, github, drive}`) or a failure envelope
(status 500, `{success:false, message}` carrying the thrown message when it
is truthy), and both carry the JSON content type and the
`Access-Control-Allow-Origin: *` header. -/
theorem response_envelope_shape (env : Env) (form : FormData) (w : World) :
    ((∃ m gh d, (onRequestPost env form w).1 = successResponse m gh d) ∨
     (∃ m, (onRequestPost env form w).1 = errorResponse (some m))) ∧
    (("Content-Type", "application/json") ∈
        (onRequestPost env form w).1.headers ∧
      ("Access-Control-Allow-Origin", "*") ∈
        (onRequestPost env form w).1.headers) ∧
    (∀ m gh d, (successResponse m gh d).status = 200 ∧
      (successResponse m gh d).body = .success m gh d ∧
      (successResponse m gh d).headers = responseHeaders) ∧
    (∀ m, m ≠ "" → (errorResponse (some m)).status = 500 ∧
      (errorResponse (some m)).body = .failure m ∧
      (errorResponse (some m)).headers = responseHeaders) := by
  refine ⟨onRequestPost_shape env form w, ?_, ?_, ?_⟩
  · rcases onRequestPost_shape env form w with ⟨m, gh, d, h⟩ | ⟨m, h⟩ <;>
      rw [h] <;> constructor <;>
      simp [successResponse, errorResponse, responseHeaders]
  · intro m gh d
    exact ⟨rfl, rfl, rfl⟩
  · intro m hm
    refine ⟨rfl, ?_, rfl⟩
    simp [errorResponse, jsTruthy, jsToString, hm]

/-- Witness for C8: the failure shaper at message `boom` has status 500,
carries the message and the standard headers. -/
theorem response_envelope_shape_witness :
    (errorResponse (some "boom")).status = 500 ∧
    (errorResponse (some "boom")).body = .failure "boom" ∧
    (errorResponse (some "boom")).headers = responseHeaders :=
  (response_envelope_shape ⟨none, none, none⟩ ⟨none, none, none, none, none⟩
    ⟨.ok, .ok, .notFound, .ok "u" "s", .ok "j", "d"⟩).2.2.2 "boom" (by decide)

end Upload
